import Mathlib

/-
Verification of the twick canvas-timeline synchronization engine
(`useTwickCanvas` in packages/live-player/src/components/live-player.tsx).

Numbers are modelled as rationals (`ℚ`); JavaScript records keyed by
strings are modelled as association lists.  Helper modules that the hook
imports but whose sources are not part of this repository snapshot
(canvas.util and the per-kind element components) are modelled from the
specification; each such definition carries a doc comment beginning
"Modelled from the spec:".
-/

namespace Twick

/-- A 2D point (video-space or canvas-space coordinates). -/
@[ext] structure Point where
  x : ℚ
  y : ℚ
deriving DecidableEq

/-- Width/height pair (`Dimensions` from @twick/media-utils). -/
@[ext] structure Dimensions where
  width : ℚ
  height : ℚ
deriving DecidableEq

/-- The `CanvasMetadata` record from the hook's types: canvas width/height, aspect
ratio and the scale factors mapping video space to canvas space.
(The source field named for the aspect ratio is called `aspect` here.) -/
structure CanvasMetadata where
  width : ℚ
  height : ℚ
  aspect : ℚ
  scaleX : ℚ
  scaleY : ℚ
deriving DecidableEq

/-- Modelled from the spec: `toCanvasPosition` lives in canvas.util, which
is not among the repository sources.  Per §4.1 the mapping between video
space and canvas space is an affine map given by the metadata scale
factors; the canvas frame is centred in the canvas (the hook's frame
guide is drawn centred at half the canvas resolution), so a video-space
point is scaled about the video centre and translated to the canvas
centre. -/
def toCanvasPosition (p : Point) (m : CanvasMetadata) (videoSize : Dimensions) : Point :=
  { x := m.width / 2 + (p.x - videoSize.width / 2) * m.scaleX
    y := m.height / 2 + (p.y - videoSize.height / 2) * m.scaleY }

/-- Modelled from the spec: `toVideoPosition` from canvas.util (not among
the repository sources), the inverse affine map of `toCanvasPosition`. -/
def toVideoPosition (q : Point) (m : CanvasMetadata) (videoSize : Dimensions) : Point :=
  { x := videoSize.width / 2 + (q.x - m.width / 2) / m.scaleX
    y := videoSize.height / 2 + (q.y - m.height / 2) / m.scaleY }

/-- Source import `convertToVideoPosition(left, top, canvasMetadata, videoSize)` as
imported by the hook from canvas.util: converts a canvas-space position
to video space. -/
def convertToVideoPosition (left top : ℚ) (m : CanvasMetadata) (videoSize : Dimensions) : Point :=
  toVideoPosition ⟨left, top⟩ m videoSize

/-- Properties of a frame effect (`props.framePosition` / `props.frameSize`). -/
structure FrameEffectProps where
  framePosition : Option Point := none
  frameSize : ℚ × ℚ
deriving DecidableEq

/-- A time-scoped frame effect.  `s`/`e` bound the activation window.
The top-level `framePosition`/`frameSize` fields model the fields the
gesture handler writes onto the stored frame-effect record (the source
spreads them at the top level, next to `props`). -/
structure FrameEffect where
  id : String
  s : ℚ := 0
  e : ℚ := 0
  props : FrameEffectProps
  framePosition : Option Point := none
  frameSize : Option (ℚ × ℚ) := none
deriving DecidableEq

/-- The `props` record of a domain element.  Geometry fields that the
hook multiplies or rounds are optional (absent models a missing field;
arithmetic on an absent field yields an absent result, modelling NaN).
The source field named for the rotation is called `rot` here. -/
structure ElemProps where
  x : ℚ := 0
  y : ℚ := 0
  width : Option ℚ := none
  height : Option ℚ := none
  radius : Option ℚ := none
  rot : Option ℚ := none
  playbackRate : Option ℚ := none
  time : Option ℚ := none
deriving DecidableEq

/-- An element's base `frame` (used when it renders as a grouped/framed
visual).  The source field named for the rotation is called `rot` here. -/
structure Frame where
  x : ℚ := 0
  y : ℚ := 0
  rot : ℚ := 0
  size : ℚ × ℚ
deriving DecidableEq

/-- The `CanvasElement` record: a domain element as the hook sees it.  `s` is the
element's start time on the timeline. -/
structure CanvasElement where
  id : String
  type : String
  timelineType : Option String := none
  s : Option ℚ := none
  props : ElemProps := {}
  frame : Option Frame := none
  frameEffects : Option (List FrameEffect) := none
deriving DecidableEq

/-- Caller-supplied caption properties (`captionPropsRef`). -/
structure CaptionProps where
  applyToAll : Bool := false
deriving DecidableEq

/-- A visual object on the rendering surface.  `elementId` is the
correlated domain-element identifier (`none` for surface artifacts such
as the frame guide); `kind` tags what was drawn; `zIndex` is the
stacking key; `snapTime` is the local playback offset forwarded to the
surface for video objects. -/
structure VisualObject where
  elementId : Option String := none
  kind : String
  zIndex : ℕ := 0
  snapTime : Option ℚ := none
deriving DecidableEq

/-- The Fabric canvas, reduced to what the hook observes: its visual
objects and its background color. -/
structure Canvas where
  objects : List VisualObject := []
  backgroundColor : Option String := none
deriving DecidableEq

/-- Lookup in a string-keyed JavaScript record modelled as an
association list (first binding wins). -/
def jsGet {α : Type} (m : List (String × α)) (k : String) : Option α :=
  (m.find? (fun kv => kv.1 = k)).map (fun kv => kv.2)

/-- Write to a string-keyed JavaScript record: replaces any existing
binding for the key. -/
def jsSet {α : Type} (m : List (String × α)) (k : String) (v : α) : List (String × α) :=
  (k, v) :: m.filter (fun kv => kv.1 ≠ k)

/-- Lookup `record[key]` where the key itself may be `undefined`
(`elementMap.current[elementId]` with `elementId = object.get("id")`). -/
def jsGetOpt {α : Type} (m : List (String × α)) (k : Option String) : Option α :=
  k.bind (jsGet m)

/-- Lookup in the frame-effect map; a stored `undefined` value reads the
same as an absent key. -/
def jsGetFrame (m : List (String × Option FrameEffect)) (k : Option String) :
    Option FrameEffect :=
  (jsGetOpt m k).getD none

/-- The mutable state of the `useTwickCanvas` hook: the canvas instance,
the element and frame-effect registries, the stored video size, canvas
resolution, canvas metadata and caption props. -/
structure TwickState where
  twickCanvas : Option Canvas := none
  elementMap : List (String × CanvasElement) := []
  elementFrameMap : List (String × Option FrameEffect) := []
  videoSize : Dimensions := ⟨1, 1⟩
  canvasResolution : Dimensions := ⟨1, 1⟩
  canvasMetadata : CanvasMetadata := ⟨0, 0, 0, 1, 1⟩
  captionProps : Option CaptionProps := none
deriving DecidableEq

/-- The hook's initial state (the initial values of its refs). -/
def initState : TwickState := {}

/-- Arguments of `buildCanvas`.  Pure style options (selection colors,
retina scaling, touch threshold) do not influence the modelled state and
are omitted. -/
structure BuildCanvasArgs where
  videoSize : Dimensions
  canvasSize : Dimensions
  canvasRef : Bool := true
  backgroundColor : String := "#000000"
  forceBuild : Bool := false
  frameScale : ℚ := 1
  showFrameGuide : Bool := false
deriving DecidableEq

/-- Modelled from the spec: `createCanvas` from canvas.util (not among
the repository sources).  Creates a fresh, empty canvas with the given
background color and computes the canvas metadata from both sizes:
width/height/aspect from the canvas size and scale factors as the
ratio of canvas size to video size (§4.1: 1920×1080 video on a 960×540
canvas gives scaleX = scaleY = 1/2). -/
def createCanvas (videoSize canvasSize : Dimensions) (backgroundColor : String) :
    Canvas × CanvasMetadata :=
  ({ objects := [], backgroundColor := some backgroundColor },
   { width := canvasSize.width
     height := canvasSize.height
     aspect := canvasSize.width / canvasSize.height
     scaleX := canvasSize.width / videoSize.width
     scaleY := canvasSize.height / videoSize.height })

/-- The frame-guide rectangle added by `buildCanvas` when
`showFrameGuide` is set: a non-interactive surface artifact with no
correlated element identifier, kept at the very back. -/
def frameGuideObject : VisualObject :=
  { elementId := none, kind := "frameGuide", zIndex := 0 }

/-- The `buildCanvas` operation: returns unchanged when there is no canvas reference,
or when the canvas resolution is unchanged and `forceBuild` is not set;
otherwise replaces the canvas, recomputes the metadata (applying the
`frameScale` padding factor to both scale factors), stores the new video
size and canvas resolution, and optionally adds the frame guide. -/
def buildCanvas (args : BuildCanvasArgs) (st : TwickState) : TwickState :=
  if ¬args.canvasRef then st
  else if ¬args.forceBuild ∧ st.canvasResolution.width = args.canvasSize.width ∧
      st.canvasResolution.height = args.canvasSize.height then st
  else
    let created := createCanvas args.videoSize args.canvasSize args.backgroundColor
    let scaledMetadata : CanvasMetadata :=
      { created.2 with
        scaleX := created.2.scaleX * args.frameScale
        scaleY := created.2.scaleY * args.frameScale }
    let canvas :=
      if args.showFrameGuide then
        { created.1 with objects := created.1.objects ++ [frameGuideObject] }
      else created.1
    { st with
      canvasMetadata := scaledMetadata
      videoSize := args.videoSize
      canvasResolution := args.canvasSize
      twickCanvas := some canvas }

/-- The `onVideoSizeChange` operation: stores the new video size and recomputes the
scale factors from the stored metadata width/height and the new video
size (note: without any frame-scale factor). -/
def onVideoSizeChange (videoSize : Dimensions) (st : TwickState) : TwickState :=
  { st with
    videoSize := videoSize
    canvasMetadata :=
      { st.canvasMetadata with
        scaleX := st.canvasMetadata.width / videoSize.width
        scaleY := st.canvasMetadata.height / videoSize.height } }

/-- Rounding half away from zero, as JavaScript's `toFixed` does on the
digit string. -/
def jsRoundHalfAway (x : ℚ) : ℤ :=
  if 0 ≤ x then ⌊x + 1 / 2⌋ else -⌊-x + 1 / 2⌋

/-- JavaScript `Number(v.toFixed(2))`: round to two decimal places. -/
def round2 (x : ℚ) : ℚ :=
  (jsRoundHalfAway (x * 100) : ℚ) / 100

/-- The Fabric object targeted by a completed pointer interaction, with
the fields the handler reads: correlated element id (absent for surface
artifacts), the Fabric object type (`objType`, from `object.type`), the
final position, the gesture's scale factors and the final angle. -/
structure MouseTarget where
  id : Option String := none
  objType : String
  left : ℚ := 0
  top : ℚ := 0
  scaleX : ℚ := 1
  scaleY : ℚ := 1
  angle : ℚ := 0
deriving DecidableEq

/-- The transform recorded on a completed interaction: which action was
performed and the pre-interaction position. -/
structure Transform where
  action : String
  originalLeft : ℚ := 0
  originalTop : ℚ := 0
deriving DecidableEq

/-- A `mouse:up` event: possibly a target object and possibly a
transform. -/
structure MouseEvent where
  target : Option MouseTarget := none
  transform : Option Transform := none
deriving DecidableEq

/-- Notifications the hook emits through `onCanvasOperation`
(`CANVAS_OPERATIONS.ITEM_SELECTED` / `ITEM_UPDATED` /
`CAPTION_PROPS_UPDATED`). -/
inductive CanvasOperation where
  | itemSelected : Option CanvasElement → CanvasOperation
  | itemUpdated : CanvasElement → CanvasOperation
  | captionPropsUpdated : CanvasElement → CaptionProps → ℚ → ℚ → CanvasOperation
deriving DecidableEq

/-- The error raised when a property is read off a missing record
(JavaScript TypeError), as happens when `elementMap.current[elementId]`
is undefined. -/
def lookupTypeError : String :=
  "TypeError: cannot read properties of undefined"

/-- The caption branch of the gesture handler: with `applyToAll` caption
props a shared caption-style update is broadcast; otherwise the single
element's x/y are patched and an item-updated notification is emitted. -/
def handleCaptionGesture (st : TwickState) (i : String) (el : CanvasElement)
    (p : Point) : TwickState × List CanvasOperation :=
  match st.captionProps with
  | some cp =>
    if cp.applyToAll then
      (st, [CanvasOperation.captionPropsUpdated el cp p.x p.y])
    else
      let el2 := { el with props := { el.props with x := p.x, y := p.y } }
      ({ st with elementMap := jsSet st.elementMap i el2 },
       [CanvasOperation.itemUpdated el2])
  | none =>
    let el2 := { el with props := { el.props with x := p.x, y := p.y } }
    ({ st with elementMap := jsSet st.elementMap i el2 },
     [CanvasOperation.itemUpdated el2])

/-- The grouped/framed branch of the gesture handler.  With an active
frame effect the element's frame-effect list entry gets the converted
position and its own frame size scaled by the gesture's scale factors
(and the frame-effect registry entry is updated); without one the
element's base frame is patched (reading the base frame off a framed
element that has none raises a TypeError). -/
def handleGroupGesture (st : TwickState) (i : String) (el : CanvasElement)
    (object : MouseTarget) (p : Point) :
    Except String (TwickState × List CanvasOperation) :=
  match jsGetFrame st.elementFrameMap (some i) with
  | some fe =>
    let updatedFrameSize : ℚ × ℚ :=
      (fe.props.frameSize.1 * object.scaleX, fe.props.frameSize.2 * object.scaleY)
    let el2 := { el with
      frameEffects := some ((el.frameEffects.getD []).map (fun f =>
        if f.id = fe.id then
          { f with props := { f.props with
              framePosition := some ⟨p.x, p.y⟩
              frameSize := updatedFrameSize } }
        else f)) }
    let fe2 := { fe with
      framePosition := some ⟨p.x, p.y⟩
      frameSize := some updatedFrameSize }
    Except.ok
      ({ st with
          elementMap := jsSet st.elementMap i el2
          elementFrameMap := jsSet st.elementFrameMap i (some fe2) },
       [CanvasOperation.itemUpdated el2])
  | none =>
    match el.frame with
    | none => Except.error lookupTypeError
    | some fr =>
      let updatedFrameSize : ℚ × ℚ :=
        (fr.size.1 * object.scaleX, fr.size.2 * object.scaleY)
      let el2 := { el with
        frame := some { fr with
          rot := object.angle
          size := updatedFrameSize
          x := p.x
          y := p.y } }
      Except.ok
        ({ st with elementMap := jsSet st.elementMap i el2 },
         [CanvasOperation.itemUpdated el2])

/-- The non-caption, non-group branches of the gesture handler: text
keeps its size and takes rotation and position; circle scales its radius
by the gesture's scaleX, rounded to two decimals, re-deriving width and
height as twice the radius; every other object scales width by scaleX
and height by scaleY. -/
def handleShapeGesture (st : TwickState) (i : String) (el : CanvasElement)
    (object : MouseTarget) (p : Point) : TwickState × List CanvasOperation :=
  let el2 :=
    if object.objType = "text" then
      { el with props := { el.props with rot := some object.angle, x := p.x, y := p.y } }
    else if object.objType = "circle" then
      let radius := el.props.radius.map (fun r => round2 (r * object.scaleX))
      { el with props := { el.props with
          rot := some object.angle
          radius := radius
          height := radius.map (fun r => r * 2)
          width := radius.map (fun r => r * 2)
          x := p.x
          y := p.y } }
    else
      { el with props := { el.props with
          rot := some object.angle
          width := el.props.width.map (fun w => w * object.scaleX)
          height := el.props.height.map (fun h => h * object.scaleY)
          x := p.x
          y := p.y } }
  ({ st with elementMap := jsSet st.elementMap i el2 },
   [CanvasOperation.itemUpdated el2])

/-- The `handleMouseUp` operation, the gesture reconciler.  Returns the successor
state together with the emitted notifications, or the raised error.  An
event with no target does nothing.  A drag that ended at its original
position emits a single item-selected notification carrying whatever the
element registry holds for the target's id.  Otherwise, for the five
recognized actions, the final position is converted to video space and a
type-specific patch is produced; reading the registry entry of an
unknown (or absent) id raises a TypeError. -/
def handleMouseUp (event : MouseEvent) (st : TwickState) :
    Except String (TwickState × List CanvasOperation) :=
  match event.target with
  | none => Except.ok (st, [])
  | some object =>
    match event.transform with
    | none => Except.ok (st, [])
    | some tr =>
      if tr.action = "drag" ∧ object.left = tr.originalLeft ∧
          object.top = tr.originalTop then
        Except.ok (st, [CanvasOperation.itemSelected (jsGetOpt st.elementMap object.id)])
      else if tr.action = "drag" ∨ tr.action = "scale" ∨ tr.action = "scaleX" ∨
          tr.action = "scaleY" ∨ tr.action = "rotate" then
        let p := convertToVideoPosition object.left object.top
          st.canvasMetadata st.videoSize
        match object.id with
        | none => Except.error lookupTypeError
        | some i =>
          match jsGet st.elementMap i with
          | none => Except.error lookupTypeError
          | some el =>
            if el.type = "caption" then
              Except.ok (handleCaptionGesture st i el p)
            else if object.objType = "group" then
              handleGroupGesture st i el object p
            else
              Except.ok (handleShapeGesture st i el object p)
      else
        Except.ok (st, [])

/-- JavaScript `x || d` on an optional number: the default is used both
when the value is absent and when it is zero (falsy). -/
def jsOrQ (x : Option ℚ) (d : ℚ) : ℚ :=
  match x with
  | none => d
  | some v => if v = 0 then d else v

/-- Modelled from the spec: `getCurrentFrameEffect` from canvas.util
(not among the repository sources).  Resolves the frame effect whose
activation window contains the playback time; when several windows
contain it (a data inconsistency) the first one in the element's
declared list wins (§4.2). -/
def getCurrentFrameEffect (element : CanvasElement) (t : ℚ) : Option FrameEffect :=
  (element.frameEffects.getD []).find? (fun fe => decide (fe.s ≤ t) && decide (t ≤ fe.e))

/-- The local playback offset computed inline by `addElementToCanvas`
for video elements:
`((seekTime || 0) - (element?.s || 0)) * (element?.props?.playbackRate || 1) + (element?.props?.time || 0)`. -/
def snapTimeOf (seekTime : Option ℚ) (element : CanvasElement) : ℚ :=
  (jsOrQ seekTime 0 - jsOrQ element.s 0) * jsOrQ element.props.playbackRate 1 +
    jsOrQ element.props.time 0

/-- The playback-offset formula as the specification words it:
`(time − element.start) × playbackRate + props.time`, with
`playbackRate` defaulting to 1 and `start`/`time` defaulting to 0 when
absent. -/
def specSnapTime (t : ℚ) (element : CanvasElement) : ℚ :=
  (t - element.s.getD 0) * element.props.playbackRate.getD 1 + element.props.time.getD 0

/-- Modelled from the spec: `addVideoElement` (components/elements, not
among the repository sources).  Validates the element's geometry
(§4.3/§7: missing geometry is `InvalidElementData`), then adds one
visual object — a grouped/framed visual when a frame effect is active —
carrying the forwarded playback offset. -/
def addVideoElement (element : CanvasElement) (index : ℕ) (canvas : Canvas)
    (currentFrameEffect : Option FrameEffect) (snapTime : ℚ) : Except String Canvas :=
  if element.props.width.isSome ∧ element.props.height.isSome then
    Except.ok { canvas with objects := canvas.objects ++
      [{ elementId := some element.id
         kind := if currentFrameEffect.isSome then "group" else "video"
         zIndex := index
         snapTime := some snapTime }] }
  else Except.error "InvalidElementData"

/-- Modelled from the spec: `addImageElement` (components/elements, not
among the repository sources).  Validates geometry and adds one visual
object. -/
def addImageElement (element : CanvasElement) (index : ℕ) (canvas : Canvas) :
    Except String Canvas :=
  if element.props.width.isSome ∧ element.props.height.isSome then
    Except.ok { canvas with objects := canvas.objects ++
      [{ elementId := some element.id, kind := "image", zIndex := index }] }
  else Except.error "InvalidElementData"

/-- Modelled from the spec: `addRectElement` (components/elements, not
among the repository sources). -/
def addRectElement (element : CanvasElement) (index : ℕ) (canvas : Canvas) :
    Except String Canvas :=
  if element.props.width.isSome ∧ element.props.height.isSome then
    Except.ok { canvas with objects := canvas.objects ++
      [{ elementId := some element.id, kind := "rect", zIndex := index }] }
  else Except.error "InvalidElementData"

/-- Modelled from the spec: `addCircleElement` (components/elements, not
among the repository sources); a circle's geometry is its radius. -/
def addCircleElement (element : CanvasElement) (index : ℕ) (canvas : Canvas) :
    Except String Canvas :=
  if element.props.radius.isSome then
    Except.ok { canvas with objects := canvas.objects ++
      [{ elementId := some element.id, kind := "circle", zIndex := index }] }
  else Except.error "InvalidElementData"

/-- Modelled from the spec: `addTextElement` (components/elements, not
among the repository sources).  Text geometry and typography come from
`props`; no geometry validation applies. -/
def addTextElement (element : CanvasElement) (index : ℕ) (canvas : Canvas) :
    Except String Canvas :=
  Except.ok { canvas with objects := canvas.objects ++
    [{ elementId := some element.id, kind := "text", zIndex := index }] }

/-- Modelled from the spec: `addCaptionElement` (components/elements,
not among the repository sources). -/
def addCaptionElement (element : CanvasElement) (index : ℕ) (canvas : Canvas)
    (captionProps : Option CaptionProps) : Except String Canvas :=
  Except.ok { canvas with objects := canvas.objects ++
    [{ elementId := some element.id, kind := "caption", zIndex := index }] }

/-- Modelled from the spec: `addBackgroundColor` (components/elements,
not among the repository sources).  Synthesizes the letterbox backdrop
companion of a scene-type media element, keyed by a derived identifier. -/
def addBackgroundColor (element : CanvasElement) (index : ℕ) (canvas : Canvas) :
    Except String Canvas :=
  Except.ok { canvas with objects := canvas.objects ++
    [{ elementId := some (element.id ++ "-background"), kind := "background", zIndex := index }] }

/-- Insertion step for the z-index sort. -/
def insertByZ (o : VisualObject) : List VisualObject → List VisualObject
  | [] => [o]
  | x :: xs => if o.zIndex < x.zIndex then o :: x :: xs else x :: insertByZ o xs

/-- Sort visual objects by ascending z-index (insertion sort). -/
def sortByZ : List VisualObject → List VisualObject
  | [] => []
  | x :: xs => insertByZ x (sortByZ xs)

/-- Modelled from the spec: `reorderElementsByZIndex` from canvas.util
(not among the repository sources).  Reorders the canvas objects so that
draw order follows the z-index ascending, keeping the frame guide at the
very back (§4.5). -/
def reorderElementsByZIndex (c : Canvas) : Canvas :=
  { c with objects :=
      c.objects.filter (fun o => o.kind = "frameGuide") ++
      sortByZ (c.objects.filter (fun o => o.kind ≠ "frameGuide")) }

/-- Modelled from the spec: `clearCanvas` from canvas.util (not among
the repository sources).  Removes every visual object; the background
color setting is also reset (the caller saves it beforehand and restores
it afterwards). -/
def clearCanvas (c : Canvas) : Canvas :=
  { objects := [], backgroundColor := none }

/-- The `addElementToCanvas` operation: projects one element onto the canvas according
to its type, records it in the element registry and, when requested,
reorders by z-index.  The returned `Option String` is the error the call
would raise (`await` rejection); state mutations made before the raising
step are kept, and the registry write and reorder do not happen on an
error.  Unrecognized types fall through the dispatch without touching
the canvas but are still recorded and still trigger the reorder. -/
def addElementToCanvas (element : CanvasElement) (index : ℕ) (reorder : Bool)
    (seekTime : Option ℚ) (captionProps : Option CaptionProps) (st : TwickState) :
    TwickState × Option String :=
  match st.twickCanvas with
  | none => (st, none)
  | some canvas =>
    let step : TwickState × Except String Canvas :=
      if element.type = "video" then
        let currentFrameEffect := getCurrentFrameEffect element (jsOrQ seekTime 0)
        let st1 := { st with
          elementFrameMap := jsSet st.elementFrameMap element.id currentFrameEffect }
        let afterVideo := addVideoElement element index canvas currentFrameEffect
          (snapTimeOf seekTime element)
        (st1,
         match afterVideo with
         | Except.error e => Except.error e
         | Except.ok c1 =>
           if element.timelineType = some "scene" then
             addBackgroundColor element index c1
           else Except.ok c1)
      else if element.type = "image" then
        (st,
         match addImageElement element index canvas with
         | Except.error e => Except.error e
         | Except.ok c1 =>
           if element.timelineType = some "scene" then
             addBackgroundColor element index c1
           else Except.ok c1)
      else if element.type = "rect" then
        (st, addRectElement element index canvas)
      else if element.type = "circle" then
        (st, addCircleElement element index canvas)
      else if element.type = "text" then
        (st, addTextElement element index canvas)
      else if element.type = "caption" then
        (st, addCaptionElement element index canvas captionProps)
      else
        (st, Except.ok canvas)
    match step with
    | (st1, Except.error e) => (st1, some e)
    | (st1, Except.ok c) =>
      let st2 := { st1 with
        twickCanvas := some (if reorder then reorderElementsByZIndex c else c)
        elementMap := jsSet st1.elementMap element.id element }
      (st2, none)

/-- The cleaning phase of `setCanvasElements` with `cleanAndAdd`: the
background color is read off the canvas, the canvas is cleared, and the
color (when set) is restored. -/
def cleanPhase (cleanAndAdd : Bool) (st : TwickState) : TwickState :=
  if cleanAndAdd then
    match st.twickCanvas with
    | some canvas =>
      let backgroundColor := canvas.backgroundColor
      let c1 := clearCanvas canvas
      let c2 := match backgroundColor with
        | some b => { c1 with backgroundColor := some b }
        | none => c1
      { st with twickCanvas := some c2 }
    | none => st
  else st

/-- The projection loop of `setCanvasElements`: each element is
projected at its index with `reorder := false`; a per-element error is
caught and logged, never propagated, so the loop continues with the next
element. -/
def projectAllFrom (seekTime : Option ℚ) (captionProps : Option CaptionProps) :
    ℕ → List CanvasElement → TwickState → TwickState
  | _, [], st => st
  | i, e :: es, st =>
    projectAllFrom seekTime captionProps (i + 1) es
      (addElementToCanvas e i false seekTime captionProps st).1

/-- The final step of `setCanvasElements`: once every projection has
completed, the canvas is reordered by z-index. -/
def applyReorder (st : TwickState) : TwickState :=
  match st.twickCanvas with
  | some c => { st with twickCanvas := some (reorderElementsByZIndex c) }
  | none => st

/-- The `setCanvasElements` operation: no-op without an initialized canvas; otherwise
optionally cleans the canvas (restoring the background color), stores
the caption props, projects every element of the list in order, and
finally reorders by z-index. -/
def setCanvasElements (elements : List CanvasElement) (seekTime : Option ℚ)
    (captionProps : Option CaptionProps) (cleanAndAdd : Bool) (st : TwickState) :
    TwickState :=
  match st.twickCanvas with
  | none => st
  | some _ =>
    let st1 := cleanPhase cleanAndAdd st
    let st2 := { st1 with captionProps := captionProps }
    applyReorder (projectAllFrom seekTime captionProps 0 elements st2)

end Twick

/-- A first build: 10×10 video on a 100×100 canvas with a 9/10 frame
scale, giving metadata scale factors 100/10 × 9/10 = 9. -/
def Twick.buildArgsA : Twick.BuildCanvasArgs :=
  { videoSize := ⟨10, 10⟩, canvasSize := ⟨100, 100⟩, frameScale := 9 / 10 }

/-- The hook state after the first build. -/
def Twick.stAfterBuildA : Twick.TwickState :=
  Twick.buildCanvas Twick.buildArgsA Twick.initState

/-- A second build request with a changed video size (20×10) but the
same canvas size, without `forceBuild` — exactly what the repository's
PlayerManager issues when only `videoProps` changes. -/
def Twick.buildArgsB : Twick.BuildCanvasArgs :=
  { videoSize := ⟨20, 10⟩, canvasSize := ⟨100, 100⟩, frameScale := 9 / 10 }

/-- Concrete circle element of radius 10. -/
def Twick.circleEl : Twick.CanvasElement :=
  { id := "c1", type := "circle"
    props := { x := 1, y := 2, radius := some 10, width := some 20, height := some 20 } }

/-- Concrete hook state holding the circle element on an empty canvas. -/
def Twick.stCircle : Twick.TwickState :=
  { twickCanvas := some { objects := [], backgroundColor := none }
    elementMap := [("c1", Twick.circleEl)] }

/-- A completed scaleX=2 gesture on the circle's visual object. -/
def Twick.evCircleScale : Twick.MouseEvent :=
  { target := some
      { id := some "c1", objType := "circle", left := 4, top := 6, scaleX := 2, scaleY := 2 }
    transform := some { action := "scaleX", originalLeft := 4, originalTop := 6 } }

/-- A drag of the circle's visual object that ends where it started. -/
def Twick.evCircleClick : Twick.MouseEvent :=
  { target := some { id := some "c1", objType := "circle", left := 4, top := 6 }
    transform := some { action := "drag", originalLeft := 4, originalTop := 6 } }

/-- An in-place drag reported on a visual object that carries no element
identifier. -/
def Twick.evNoIdClick : Twick.MouseEvent :=
  { target := some { id := none, objType := "rect", left := 5, top := 5 }
    transform := some { action := "drag", originalLeft := 5, originalTop := 5 } }

/-- A scale gesture reported on a visual object that carries no element
identifier. -/
def Twick.evNoIdScale : Twick.MouseEvent :=
  { target := some { id := none, objType := "rect", left := 5, top := 5 }
    transform := some { action := "scale", originalLeft := 5, originalTop := 5 } }

/-- A frame effect active from time 0 to 10 with frame size (50, 60). -/
def Twick.feW : Twick.FrameEffect :=
  { id := "fe1", s := 0, e := 10, props := { frameSize := (50, 60) } }

/-- A framed video element whose frame-effect list holds `feW`. -/
def Twick.groupEl : Twick.CanvasElement :=
  { id := "g1", type := "video"
    props := { width := some 100, height := some 80 }
    frame := some { size := (100, 80) }
    frameEffects := some [Twick.feW] }

/-- Hook state holding the framed element, with `feW` resolved as its
active frame effect. -/
def Twick.stGroup : Twick.TwickState :=
  { twickCanvas := some { objects := [], backgroundColor := none }
    elementMap := [("g1", Twick.groupEl)]
    elementFrameMap := [("g1", some Twick.feW)]
    canvasMetadata := ⟨200, 100, 2, 2, 1⟩
    videoSize := ⟨100, 100⟩ }

/-- A completed scale gesture on the framed element's group object. -/
def Twick.evGroupScale : Twick.MouseEvent :=
  { target := some
      { id := some "g1", objType := "group", left := 30, top := 40, scaleX := 2, scaleY := 3 }
    transform := some { action := "scale", originalLeft := 10, originalTop := 10 } }

/-- A canvas carrying one surface artifact and a set background color. -/
def Twick.cBg : Twick.Canvas :=
  { objects := [Twick.frameGuideObject], backgroundColor := some "#123456" }

/-- Hook state whose canvas is `cBg`. -/
def Twick.stBg : Twick.TwickState :=
  { twickCanvas := some Twick.cBg }

/-- An image element with no width: its projection fails validation. -/
def Twick.badImageEl : Twick.CanvasElement :=
  { id := "b1", type := "image", props := { height := some 10 } }

/-- A valid rect element. -/
def Twick.rectEl : Twick.CanvasElement :=
  { id := "r1", type := "rect", props := { width := some 5, height := some 5 } }

/-- A valid text element. -/
def Twick.textEl : Twick.CanvasElement :=
  { id := "t1", type := "text" }

/-- A video element carrying an explicit `playbackRate` of zero. -/
def Twick.videoElZeroRate : Twick.CanvasElement :=
  { id := "v1", type := "video"
    props := { width := some 100, height := some 50, playbackRate := some 0 } }

/-- Hook state with an empty canvas. -/
def Twick.stEmptyCanvas : Twick.TwickState :=
  { twickCanvas := some { objects := [], backgroundColor := none } }

/-- An element of an unrecognized type. -/
def Twick.unknownEl : Twick.CanvasElement :=
  { id := "u1", type := "sticker" }

/-- C1: for every point p in video space and every canvas metadata with
nonzero scale factors, converting p to canvas space and back yields p
again (exactly, in the rational model). -/
theorem Twick.toVideoPosition_toCanvasPosition (p : Twick.Point)
    (m : Twick.CanvasMetadata) (v : Twick.Dimensions)
    (hx : m.scaleX ≠ 0) (hy : m.scaleY ≠ 0) :
    Twick.toVideoPosition (Twick.toCanvasPosition p m v) m v = p := by
  unfold Twick.toCanvasPosition Twick.toVideoPosition
  ext
  case x => field_simp; ring
  case y => field_simp; ring

/-- C1 witness: the round trip is the identity at a concrete point and
concrete metadata. -/
theorem Twick.toVideoPosition_toCanvasPosition_witness :
    Twick.toVideoPosition
      (Twick.toCanvasPosition ⟨3, 5⟩ ⟨960, 540, 16 / 9, 1 / 2, 1 / 2⟩ ⟨1920, 1080⟩)
      ⟨960, 540, 16 / 9, 1 / 2, 1 / 2⟩ ⟨1920, 1080⟩ = ⟨3, 5⟩ :=
  Twick.toVideoPosition_toCanvasPosition ⟨3, 5⟩ ⟨960, 540, 16 / 9, 1 / 2, 1 / 2⟩
    ⟨1920, 1080⟩ (by norm_num) (by norm_num)

/-- C2 counterexample: a video-size change with an unchanged canvas size
leaves `buildCanvas` in its early-return path, so the metadata (and even
the stored video size) is not recomputed and stays stale; and the
dedicated `onVideoSizeChange` path does recompute scale factors but
drops the frame-scale padding factor, so neither path yields the
metadata recomputed from both sizes including the frame scale. -/
theorem Twick.buildCanvas_stale_metadata_counterexample :
    Twick.buildCanvas Twick.buildArgsB Twick.stAfterBuildA = Twick.stAfterBuildA ∧
    Twick.stAfterBuildA.videoSize ≠ Twick.buildArgsB.videoSize ∧
    Twick.stAfterBuildA.canvasMetadata.scaleX ≠
      Twick.buildArgsB.canvasSize.width / Twick.buildArgsB.videoSize.width *
        Twick.buildArgsB.frameScale ∧
    (Twick.onVideoSizeChange Twick.buildArgsB.videoSize Twick.stAfterBuildA).canvasMetadata.scaleX ≠
      Twick.buildArgsB.canvasSize.width / Twick.buildArgsB.videoSize.width *
        Twick.buildArgsB.frameScale := by
  have hA : Twick.stAfterBuildA =
      { twickCanvas := some { objects := [], backgroundColor := some "#000000" }
        elementMap := []
        elementFrameMap := []
        videoSize := ⟨10, 10⟩
        canvasResolution := ⟨100, 100⟩
        canvasMetadata := ⟨100, 100, 1, 9, 9⟩
        captionProps := none } := by
    norm_num [Twick.stAfterBuildA, Twick.buildCanvas, Twick.buildArgsA,
      Twick.initState, Twick.createCanvas, Twick.CanvasMetadata.mk.injEq]
  refine ⟨?_, ?_, ?_, ?_⟩
  · rw [hA]
    norm_num [Twick.buildCanvas, Twick.buildArgsB]
  · rw [hA]
    norm_num [Twick.buildArgsB, Twick.Dimensions.ext_iff]
  · rw [hA]
    norm_num [Twick.buildArgsB]
  · rw [hA]
    norm_num [Twick.onVideoSizeChange, Twick.buildArgsB]

/-- C2 amended: the metadata is recomputed from both sizes, including
the frame-scale factor, exactly when `buildCanvas` runs with a canvas
reference and either `forceBuild` or a changed canvas size (it early
returns otherwise, keeping the stale metadata), and `onVideoSizeChange`
recomputes the scale factors from the stored canvas dimensions and the
new video size but without the frame-scale factor. -/
theorem Twick.buildCanvas_recomputes_metadata (args : Twick.BuildCanvasArgs)
    (st : Twick.TwickState) (v : Twick.Dimensions)
    (href : args.canvasRef = true)
    (h : args.forceBuild = true ∨ st.canvasResolution ≠ args.canvasSize) :
    (Twick.buildCanvas args st).canvasMetadata.scaleX =
      args.canvasSize.width / args.videoSize.width * args.frameScale ∧
    (Twick.buildCanvas args st).canvasMetadata.scaleY =
      args.canvasSize.height / args.videoSize.height * args.frameScale ∧
    (Twick.buildCanvas args st).videoSize = args.videoSize ∧
    (Twick.buildCanvas args st).canvasResolution = args.canvasSize ∧
    (Twick.onVideoSizeChange v st).canvasMetadata.scaleX =
      st.canvasMetadata.width / v.width ∧
    (Twick.onVideoSizeChange v st).canvasMetadata.scaleY =
      st.canvasMetadata.height / v.height := by
  have hcond : ¬(args.forceBuild = false ∧
      st.canvasResolution.width = args.canvasSize.width ∧
      st.canvasResolution.height = args.canvasSize.height) := by
    rcases h with h | h
    · simp [h]
    · rintro ⟨-, hw, hh⟩
      exact h (Twick.Dimensions.ext hw hh)
  simp [Twick.buildCanvas, Twick.createCanvas, Twick.onVideoSizeChange, href, hcond]

/-- C2 amended witness: a forced rebuild at concrete sizes recomputes
the metadata from both sizes with the frame scale. -/
theorem Twick.buildCanvas_recomputes_metadata_witness :
    (Twick.buildCanvas { Twick.buildArgsB with forceBuild := true }
        Twick.stAfterBuildA).canvasMetadata.scaleX =
      (100 : ℚ) / 20 * (9 / 10) ∧
    (Twick.buildCanvas { Twick.buildArgsB with forceBuild := true }
        Twick.stAfterBuildA).canvasMetadata.scaleY =
      (100 : ℚ) / 10 * (9 / 10) ∧
    (Twick.buildCanvas { Twick.buildArgsB with forceBuild := true }
        Twick.stAfterBuildA).videoSize = ⟨20, 10⟩ ∧
    (Twick.buildCanvas { Twick.buildArgsB with forceBuild := true }
        Twick.stAfterBuildA).canvasResolution = ⟨100, 100⟩ ∧
    (Twick.onVideoSizeChange ⟨20, 10⟩ Twick.stAfterBuildA).canvasMetadata.scaleX =
      Twick.stAfterBuildA.canvasMetadata.width / 20 ∧
    (Twick.onVideoSizeChange ⟨20, 10⟩ Twick.stAfterBuildA).canvasMetadata.scaleY =
      Twick.stAfterBuildA.canvasMetadata.height / 10 := by
  have h := Twick.buildCanvas_recomputes_metadata
    { Twick.buildArgsB with forceBuild := true } Twick.stAfterBuildA ⟨20, 10⟩
    rfl (Or.inl rfl)
  simpa [Twick.buildArgsB] using h

/-- Helper: for the five recognized actions (outside the in-place-drag
path), the handler converts the final position and dispatches on the
element type and the Fabric object type. -/
theorem Twick.handleMouseUp_gesture_eq (st : Twick.TwickState) (ev : Twick.MouseEvent)
    (object : Twick.MouseTarget) (tr : Twick.Transform) (i : String)
    (el : Twick.CanvasElement)
    (hT : ev.target = some object) (htr : ev.transform = some tr)
    (hact : tr.action = "drag" ∨ tr.action = "scale" ∨ tr.action = "scaleX" ∨
      tr.action = "scaleY" ∨ tr.action = "rotate")
    (hnc : ¬(tr.action = "drag" ∧ object.left = tr.originalLeft ∧
      object.top = tr.originalTop))
    (hid : object.id = some i) (hel : Twick.jsGet st.elementMap i = some el)
    (hcap : el.type ≠ "caption") :
    Twick.handleMouseUp ev st =
      (if object.objType = "group" then
        Twick.handleGroupGesture st i el object
          (Twick.convertToVideoPosition object.left object.top
            st.canvasMetadata st.videoSize)
      else
        Except.ok (Twick.handleShapeGesture st i el object
          (Twick.convertToVideoPosition object.left object.top
            st.canvasMetadata st.videoSize))) := by
  simp [Twick.handleMouseUp, hT, htr, hnc, hact, hid, hel, hcap]

/-- C3: a completed scale gesture on a circle element patches the radius
to the old radius times the gesture's scale factor, rounded to two
decimal places, and re-derives width and height as twice the new
radius. -/
theorem Twick.handleMouseUp_circle_scale (st : Twick.TwickState) (ev : Twick.MouseEvent)
    (object : Twick.MouseTarget) (tr : Twick.Transform) (i : String)
    (el : Twick.CanvasElement) (r : ℚ)
    (hT : ev.target = some object) (htr : ev.transform = some tr)
    (hact3 : tr.action = "scale" ∨ tr.action = "scaleX" ∨ tr.action = "scaleY")
    (hid : object.id = some i) (hel : Twick.jsGet st.elementMap i = some el)
    (hcap : el.type ≠ "caption") (hcirc : object.objType = "circle")
    (hr : el.props.radius = some r) :
    ∃ st2 el2,
      Twick.handleMouseUp ev st =
        Except.ok (st2, [Twick.CanvasOperation.itemUpdated el2]) ∧
      el2.props.radius = some (Twick.round2 (r * object.scaleX)) ∧
      el2.props.width = some (Twick.round2 (r * object.scaleX) * 2) ∧
      el2.props.height = some (Twick.round2 (r * object.scaleX) * 2) := by
  have hnd : tr.action ≠ "drag" := by rcases hact3 with h | h | h <;> simp [h]
  have hact : tr.action = "drag" ∨ tr.action = "scale" ∨ tr.action = "scaleX" ∨
      tr.action = "scaleY" ∨ tr.action = "rotate" := by
    rcases hact3 with h | h | h <;> simp [h]
  have hnc : ¬(tr.action = "drag" ∧ object.left = tr.originalLeft ∧
      object.top = tr.originalTop) := fun hcl => hnd hcl.1
  have hrun := Twick.handleMouseUp_gesture_eq st ev object tr i el
    hT htr hact hnc hid hel hcap
  have hng : object.objType ≠ "group" := by simp [hcirc]
  rw [hrun, if_neg hng]
  refine ⟨_, _, rfl, ?_, ?_, ?_⟩ <;>
    simp [Twick.handleShapeGesture, hcirc, hr]

/-- C3 witness: the scaleX=2 gesture on the radius-10 circle yields a
patch with radius 20 and width and height 40. -/
theorem Twick.handleMouseUp_circle_scale_witness :
    ∃ st2 el2,
      Twick.handleMouseUp Twick.evCircleScale Twick.stCircle =
        Except.ok (st2, [Twick.CanvasOperation.itemUpdated el2]) ∧
      el2.props.radius = some 20 ∧
      el2.props.width = some 40 ∧
      el2.props.height = some 40 := by
  have h := Twick.handleMouseUp_circle_scale Twick.stCircle Twick.evCircleScale
    { id := some "c1", objType := "circle", left := 4, top := 6, scaleX := 2, scaleY := 2 }
    { action := "scaleX", originalLeft := 4, originalTop := 6 }
    "c1" Twick.circleEl 10 rfl rfl (Or.inr (Or.inl rfl)) rfl
    (by simp [Twick.stCircle, Twick.jsGet]) (by simp [Twick.circleEl]) rfl rfl
  have hround : Twick.round2 ((10 : ℚ) * 2) = 20 := by
    norm_num [Twick.round2, Twick.jsRoundHalfAway]
  obtain ⟨st2, el2, h1, h2, h3, h4⟩ := h
  refine ⟨st2, el2, h1, ?_, ?_, ?_⟩
  · rw [h2, hround]
  · rw [h3, hround]; norm_num
  · rw [h4, hround]; norm_num

/-- C4: a completed drag whose final screen position equals the
pre-interaction position emits exactly one item-selected notification
(carrying the registry entry for the target's id), no geometry patch,
and leaves the whole hook state — in particular the stored element
snapshot — unchanged. -/
theorem Twick.handleMouseUp_click_selects (st : Twick.TwickState) (ev : Twick.MouseEvent)
    (object : Twick.MouseTarget) (tr : Twick.Transform)
    (hT : ev.target = some object) (htr : ev.transform = some tr)
    (ha : tr.action = "drag") (hl : object.left = tr.originalLeft)
    (ht : object.top = tr.originalTop) :
    Twick.handleMouseUp ev st =
      Except.ok (st, [Twick.CanvasOperation.itemSelected
        (Twick.jsGetOpt st.elementMap object.id)]) := by
  simp [Twick.handleMouseUp, hT, htr, ha, hl, ht]

/-- C4 witness: the in-place drag on the stored circle yields exactly
one selection notification carrying the circle's snapshot, with the
state untouched. -/
theorem Twick.handleMouseUp_click_selects_witness :
    Twick.handleMouseUp Twick.evCircleClick Twick.stCircle =
      Except.ok (Twick.stCircle, [Twick.CanvasOperation.itemSelected
        (Twick.jsGetOpt Twick.stCircle.elementMap (some "c1"))]) :=
  Twick.handleMouseUp_click_selects Twick.stCircle Twick.evCircleClick
    { id := some "c1", objType := "circle", left := 4, top := 6 }
    { action := "drag", originalLeft := 4, originalTop := 6 }
    rfl rfl rfl rfl rfl

/-- C5 counterexample: a completed interaction on a visual object with
no correlated element identifier is not ignored silently — an in-place
drag emits an item-selected notification with an empty payload, and a
scale gesture raises a type error from the registry lookup. -/
theorem Twick.handleMouseUp_missing_id_counterexample :
    Twick.handleMouseUp Twick.evNoIdClick Twick.stCircle =
      Except.ok (Twick.stCircle, [Twick.CanvasOperation.itemSelected none]) ∧
    Twick.handleMouseUp Twick.evNoIdScale Twick.stCircle =
      Except.error Twick.lookupTypeError := by
  constructor
  · simp [Twick.handleMouseUp, Twick.evNoIdClick, Twick.jsGetOpt]
  · simp [Twick.handleMouseUp, Twick.evNoIdScale]

/-- C5 amended: only an event with no target object at all is ignored
silently; a completed interaction on a target that carries no element
identifier instead emits a selection notification with no element data
(for an in-place drag) or raises a lookup type error (for a scale),
leaving the state unchanged in both non-raising cases. -/
theorem Twick.handleMouseUp_missing_id (st : Twick.TwickState) (ev : Twick.MouseEvent)
    (object : Twick.MouseTarget) (tr : Twick.Transform)
    (hT : ev.target = some object) (htr : ev.transform = some tr)
    (hid : object.id = none) :
    (tr.action = "drag" → object.left = tr.originalLeft → object.top = tr.originalTop →
      Twick.handleMouseUp ev st =
        Except.ok (st, [Twick.CanvasOperation.itemSelected none])) ∧
    (tr.action = "scale" →
      Twick.handleMouseUp ev st = Except.error Twick.lookupTypeError) ∧
    (∀ (st2 : Twick.TwickState) (ev2 : Twick.MouseEvent), ev2.target = none →
      Twick.handleMouseUp ev2 st2 = Except.ok (st2, [])) := by
  refine ⟨?_, ?_, ?_⟩
  · intro ha hl ht
    simp [Twick.handleMouseUp, hT, htr, ha, hl, ht, hid, Twick.jsGetOpt]
  · intro ha
    simp [Twick.handleMouseUp, hT, htr, ha, hid]
  · intro st2 ev2 h2
    simp [Twick.handleMouseUp, h2]

/-- C5 amended witness: at the concrete id-less drag event the handler
emits the empty selection notification. -/
theorem Twick.handleMouseUp_missing_id_witness :
    Twick.handleMouseUp Twick.evNoIdClick Twick.stCircle =
      Except.ok (Twick.stCircle, [Twick.CanvasOperation.itemSelected none]) :=
  (Twick.handleMouseUp_missing_id Twick.stCircle Twick.evNoIdClick
    { id := none, objType := "rect", left := 5, top := 5 }
    { action := "drag", originalLeft := 5, originalTop := 5 }
    rfl rfl rfl).1 rfl rfl rfl

/-- C6: a completed gesture on a grouped/framed object.  With an active
frame effect for the element, the emitted patch rewrites that frame
effect's framePosition to the converted position and its frameSize to
the effect's old frame size scaled by the gesture's scaleX/scaleY,
leaving the element's base frame (and its props) unchanged.  Without an
active frame effect, the patch rewrites the element's own frame
position, rotation and size instead. -/
theorem Twick.handleMouseUp_group_gesture (st : Twick.TwickState) (ev : Twick.MouseEvent)
    (object : Twick.MouseTarget) (tr : Twick.Transform) (i : String)
    (el : Twick.CanvasElement)
    (hT : ev.target = some object) (htr : ev.transform = some tr)
    (hact : tr.action = "drag" ∨ tr.action = "scale" ∨ tr.action = "scaleX" ∨
      tr.action = "scaleY" ∨ tr.action = "rotate")
    (hnc : ¬(tr.action = "drag" ∧ object.left = tr.originalLeft ∧
      object.top = tr.originalTop))
    (hid : object.id = some i) (hel : Twick.jsGet st.elementMap i = some el)
    (hcap : el.type ≠ "caption") (hgr : object.objType = "group") :
    (∀ fe, Twick.jsGetFrame st.elementFrameMap (some i) = some fe →
      ∃ st2 el2,
        Twick.handleMouseUp ev st =
          Except.ok (st2, [Twick.CanvasOperation.itemUpdated el2]) ∧
        el2.frame = el.frame ∧
        el2.props = el.props ∧
        el2.frameEffects = some ((el.frameEffects.getD []).map (fun f =>
          if f.id = fe.id then
            { f with props := { f.props with
                framePosition := some (Twick.convertToVideoPosition object.left
                  object.top st.canvasMetadata st.videoSize)
                frameSize := (fe.props.frameSize.1 * object.scaleX,
                  fe.props.frameSize.2 * object.scaleY) } }
          else f))) ∧
    (∀ fr, Twick.jsGetFrame st.elementFrameMap (some i) = none → el.frame = some fr →
      ∃ st2,
        Twick.handleMouseUp ev st =
          Except.ok (st2, [Twick.CanvasOperation.itemUpdated { el with
            frame := some { fr with
              rot := object.angle
              size := (fr.size.1 * object.scaleX, fr.size.2 * object.scaleY)
              x := (Twick.convertToVideoPosition object.left object.top
                st.canvasMetadata st.videoSize).x
              y := (Twick.convertToVideoPosition object.left object.top
                st.canvasMetadata st.videoSize).y } }])) := by
  have hrun := Twick.handleMouseUp_gesture_eq st ev object tr i el
    hT htr hact hnc hid hel hcap
  rw [hrun, if_pos hgr]
  constructor
  · intro fe hfe
    simp only [Twick.handleGroupGesture, hfe]
    exact ⟨_, _, rfl, rfl, rfl, rfl⟩
  · intro fr hfe hfr
    simp only [Twick.handleGroupGesture, hfe, hfr]
    exact ⟨_, rfl⟩

/-- C6 witness: at the concrete scale gesture on the framed element, the
active frame effect's geometry is patched and the base frame is left
unchanged. -/
theorem Twick.handleMouseUp_group_gesture_witness :
    ∃ st2 el2,
      Twick.handleMouseUp Twick.evGroupScale Twick.stGroup =
        Except.ok (st2, [Twick.CanvasOperation.itemUpdated el2]) ∧
      el2.frame = Twick.groupEl.frame ∧
      el2.props = Twick.groupEl.props ∧
      el2.frameEffects = some ((Twick.groupEl.frameEffects.getD []).map (fun f =>
        if f.id = Twick.feW.id then
          { f with props := { f.props with
              framePosition := some (Twick.convertToVideoPosition 30 40
                Twick.stGroup.canvasMetadata Twick.stGroup.videoSize)
              frameSize := (Twick.feW.props.frameSize.1 * 2,
                Twick.feW.props.frameSize.2 * 3) } }
        else f)) :=
  (Twick.handleMouseUp_group_gesture Twick.stGroup Twick.evGroupScale
    { id := some "g1", objType := "group", left := 30, top := 40, scaleX := 2, scaleY := 3 }
    { action := "scale", originalLeft := 10, originalTop := 10 }
    "g1" Twick.groupEl rfl rfl (Or.inr (Or.inl rfl)) (by simp)
    rfl (by simp [Twick.jsGet, Twick.stGroup]) (by simp [Twick.groupEl]) rfl).1
    Twick.feW (by simp [Twick.jsGetFrame, Twick.jsGetOpt, Twick.jsGet, Twick.stGroup])

/-- C7: a rebuild with `cleanAndAdd` first removes every visual object
while restoring the background color — it behaves exactly like a rebuild
without cleaning started from an emptied canvas that kept the prior
background color — and with an empty element list the result is zero
visual objects with the prior background color. -/
theorem Twick.setCanvasElements_cleanAndAdd (st : Twick.TwickState) (c : Twick.Canvas)
    (elements : List Twick.CanvasElement) (t : Option ℚ)
    (cp : Option Twick.CaptionProps)
    (hc : st.twickCanvas = some c) :
    Twick.setCanvasElements elements t cp true st =
      Twick.setCanvasElements elements t cp false
        { st with twickCanvas := some { objects := [], backgroundColor := c.backgroundColor } } ∧
    (Twick.setCanvasElements [] t cp true st).twickCanvas =
      some { objects := [], backgroundColor := c.backgroundColor } := by
  have hclean : Twick.cleanPhase true st =
      { st with twickCanvas := some { objects := [], backgroundColor := c.backgroundColor } } := by
    cases hbg : c.backgroundColor <;>
      simp [Twick.cleanPhase, Twick.clearCanvas, hc, hbg]
  have hnoclean : ∀ st0 : Twick.TwickState, Twick.cleanPhase false st0 = st0 :=
    fun _ => rfl
  constructor
  · simp only [Twick.setCanvasElements, hc, hclean, hnoclean]
  · simp [Twick.setCanvasElements, hc, hclean, Twick.projectAllFrom,
      Twick.applyReorder, Twick.reorderElementsByZIndex, Twick.sortByZ]

/-- C7 witness: the clean-and-add rebuild over the concrete canvas with
a set background color. -/
theorem Twick.setCanvasElements_cleanAndAdd_witness :
    Twick.setCanvasElements [Twick.circleEl] (some 0) none true Twick.stBg =
      Twick.setCanvasElements [Twick.circleEl] (some 0) none false
        { Twick.stBg with
          twickCanvas := some { objects := [], backgroundColor := Twick.cBg.backgroundColor } } ∧
    (Twick.setCanvasElements [] (some 0) none true Twick.stBg).twickCanvas =
      some { objects := [], backgroundColor := Twick.cBg.backgroundColor } :=
  Twick.setCanvasElements_cleanAndAdd Twick.stBg Twick.cBg [Twick.circleEl]
    (some 0) none rfl

/-- Helper: projecting an image element with no width raises
`InvalidElementData` before any state change, so the caught-and-logged
projection step leaves the state exactly as it was. -/
theorem Twick.addElementToCanvas_invalid_image (bad : Twick.CanvasElement) (i : ℕ)
    (t : Option ℚ) (cp : Option Twick.CaptionProps) (st : Twick.TwickState)
    (hty : bad.type = "image") (hw : bad.props.width = none) :
    (Twick.addElementToCanvas bad i false t cp st).1 = st := by
  cases hcv : st.twickCanvas <;>
    simp [Twick.addElementToCanvas, hty, hw, Twick.addImageElement, hcv]

/-- Helper: the projection loop simply skips an invalid image element,
still visiting every other element at its original index. -/
theorem Twick.projectAllFrom_skips_invalid (t : Option ℚ)
    (cp : Option Twick.CaptionProps) (bad : Twick.CanvasElement)
    (hty : bad.type = "image") (hw : bad.props.width = none)
    (xs : List Twick.CanvasElement) :
    ∀ (i : ℕ) (ys : List Twick.CanvasElement) (st : Twick.TwickState),
      Twick.projectAllFrom t cp i (xs ++ bad :: ys) st =
        Twick.projectAllFrom t cp (i + xs.length + 1) ys
          (Twick.projectAllFrom t cp i xs st) := by
  induction xs with
  | nil =>
    intro i ys st
    simp [Twick.projectAllFrom,
      Twick.addElementToCanvas_invalid_image bad i t cp st hty hw]
  | cons x xs ih =>
    intro i ys st
    simp only [List.cons_append, Twick.projectAllFrom, List.length_cons, List.append_eq]
    rw [ih]
    have harith : i + 1 + xs.length + 1 = i + (xs.length + 1) + 1 := by omega
    rw [harith]

/-- C8: a rebuild over a list containing an element whose projection
fails still projects every sibling (each at its original index), and the
z-index reorder still runs, as the final step after the whole projection
loop; the failing element's step itself reports `InvalidElementData` and
changes nothing. -/
theorem Twick.setCanvasElements_error_isolated (st : Twick.TwickState) (c : Twick.Canvas)
    (xs ys : List Twick.CanvasElement) (bad : Twick.CanvasElement) (t : Option ℚ)
    (cp : Option Twick.CaptionProps) (ca : Bool)
    (hc : st.twickCanvas = some c) (hty : bad.type = "image")
    (hw : bad.props.width = none) :
    (Twick.addElementToCanvas bad 0 false t cp st).2 = some "InvalidElementData" ∧
    Twick.setCanvasElements (xs ++ bad :: ys) t cp ca st =
      Twick.applyReorder (Twick.projectAllFrom t cp (xs.length + 1) ys
        (Twick.projectAllFrom t cp 0 xs
          { Twick.cleanPhase ca st with captionProps := cp })) := by
  constructor
  · simp [Twick.addElementToCanvas, hty, hw, Twick.addImageElement, hc]
  · simp only [Twick.setCanvasElements, hc]
    rw [Twick.projectAllFrom_skips_invalid t cp bad hty hw xs 0 ys]
    norm_num

/-- C8 witness: a concrete rebuild over a valid rect, the invalid image
and a valid text element. -/
theorem Twick.setCanvasElements_error_isolated_witness :
    (Twick.addElementToCanvas Twick.badImageEl 0 false (some 0) none Twick.stBg).2 =
      some "InvalidElementData" ∧
    Twick.setCanvasElements ([Twick.rectEl] ++ Twick.badImageEl :: [Twick.textEl])
        (some 0) none true Twick.stBg =
      Twick.applyReorder (Twick.projectAllFrom (some 0) none ([Twick.rectEl].length + 1)
        [Twick.textEl] (Twick.projectAllFrom (some 0) none 0 [Twick.rectEl]
          { Twick.cleanPhase true Twick.stBg with captionProps := none })) :=
  Twick.setCanvasElements_error_isolated Twick.stBg Twick.cBg
    [Twick.rectEl] [Twick.textEl] Twick.badImageEl (some 0) none true
    rfl rfl rfl

/-- Helper: JavaScript `x || 0` agrees with defaulting an absent value
to 0. -/
theorem Twick.jsOrQ_zero (x : Option ℚ) : Twick.jsOrQ x 0 = x.getD 0 := by
  cases x with
  | none => rfl
  | some v => by_cases hv : v = 0 <;> simp [Twick.jsOrQ, hv]

/-- Helper: JavaScript `x || 1` defaults both an absent and a zero value
to 1. -/
theorem Twick.jsOrQ_one (x : Option ℚ) :
    Twick.jsOrQ x 1 = if x = some 0 then 1 else x.getD 1 := by
  cases x with
  | none => simp [Twick.jsOrQ]
  | some v => by_cases hv : v = 0 <;> simp [Twick.jsOrQ, hv]

/-- Helper: the canvas produced by projecting a valid video element —
the prior objects, then the video's visual object carrying the forwarded
offset, then (for a scene element) the synthesized backdrop. -/
theorem Twick.addElementToCanvas_video_canvas (st : Twick.TwickState)
    (c : Twick.Canvas) (el : Twick.CanvasElement) (i : ℕ) (t : Option ℚ)
    (cp : Option Twick.CaptionProps)
    (hc : st.twickCanvas = some c) (hty : el.type = "video")
    (hw : el.props.width.isSome = true) (hh : el.props.height.isSome = true) :
    (Twick.addElementToCanvas el i false t cp st).1.twickCanvas =
      some { objects := c.objects ++
          [{ elementId := some el.id
             kind := if (Twick.getCurrentFrameEffect el (Twick.jsOrQ t 0)).isSome
               then "group" else "video"
             zIndex := i
             snapTime := some (Twick.snapTimeOf t el) }] ++
          (if el.timelineType = some "scene" then
            [{ elementId := some (el.id ++ "-background"), kind := "background", zIndex := i }]
          else [])
             backgroundColor := c.backgroundColor } := by
  by_cases hsc : el.timelineType = some "scene" <;>
    simp [Twick.addElementToCanvas, hc, hty, Twick.addVideoElement, hw, hh,
      Twick.addBackgroundColor, hsc]

/-- C9 amended: projecting a video element forwards to the rendering
surface a visual object whose local playback offset equals
`(t − element.start) × playbackRate + props.time`, with `start` and
`time` defaulting to 0 when absent, and `playbackRate` replaced by 1
both when absent and when zero (the source uses JavaScript `||`). -/
theorem Twick.addElementToCanvas_video_snapTime (st : Twick.TwickState)
    (c : Twick.Canvas) (el : Twick.CanvasElement) (i : ℕ) (t : Option ℚ)
    (cp : Option Twick.CaptionProps)
    (hc : st.twickCanvas = some c) (hty : el.type = "video")
    (hw : el.props.width.isSome = true) (hh : el.props.height.isSome = true) :
    ∃ c2, (Twick.addElementToCanvas el i false t cp st).1.twickCanvas = some c2 ∧
      ∃ o, o ∈ c2.objects ∧ o.elementId = some el.id ∧
        o.snapTime = some ((t.getD 0 - el.s.getD 0) *
          (if el.props.playbackRate = some 0 then 1 else el.props.playbackRate.getD 1) +
          el.props.time.getD 0) := by
  have hsnap : Twick.snapTimeOf t el = (t.getD 0 - el.s.getD 0) *
      (if el.props.playbackRate = some 0 then 1 else el.props.playbackRate.getD 1) +
      el.props.time.getD 0 := by
    simp [Twick.snapTimeOf, Twick.jsOrQ_zero, Twick.jsOrQ_one]
  have hcv := Twick.addElementToCanvas_video_canvas st c el i t cp hc hty hw hh
  refine ⟨_, hcv,
    ⟨{ elementId := some el.id
       kind := if (Twick.getCurrentFrameEffect el (Twick.jsOrQ t 0)).isSome
         then "group" else "video"
       zIndex := i
       snapTime := some (Twick.snapTimeOf t el) }, ?_, rfl, ?_⟩⟩
  · simp
  · simp [hsnap]

/-- C9 counterexample: at seek time 2, the offset the code forwards for
the zero-playback-rate video element is 2 (JavaScript `|| 1` replaces
the zero rate by 1), while the specified formula — playbackRate
defaulting to 1 only when absent — yields 0, so the claimed equation
fails. -/
theorem Twick.snapTime_zero_rate_counterexample :
    Twick.snapTimeOf (some 2) Twick.videoElZeroRate = 2 ∧
    Twick.specSnapTime 2 Twick.videoElZeroRate = 0 ∧
    Twick.snapTimeOf (some 2) Twick.videoElZeroRate ≠
      Twick.specSnapTime 2 Twick.videoElZeroRate ∧
    (Twick.addElementToCanvas Twick.videoElZeroRate 0 false (some 2) none
        Twick.stEmptyCanvas).1.twickCanvas =
      some { objects :=
               [{ elementId := some "v1", kind := "video", zIndex := 0, snapTime := some 2 }]
             backgroundColor := none } := by
  refine ⟨?_, ?_, ?_, ?_⟩
  · norm_num [Twick.snapTimeOf, Twick.jsOrQ, Twick.videoElZeroRate]
  · norm_num [Twick.specSnapTime, Twick.videoElZeroRate]
  · norm_num [Twick.snapTimeOf, Twick.specSnapTime, Twick.jsOrQ, Twick.videoElZeroRate]
  · simp [Twick.addElementToCanvas, Twick.stEmptyCanvas, Twick.videoElZeroRate,
      Twick.addVideoElement, Twick.getCurrentFrameEffect, Twick.snapTimeOf,
      Twick.jsOrQ, Twick.jsSet]

/-- C9 amended witness: the concrete zero-rate video element is
projected with forwarded offset 2, matching the amended formula. -/
theorem Twick.addElementToCanvas_video_snapTime_witness :
    ∃ c2, (Twick.addElementToCanvas Twick.videoElZeroRate 0 false (some 2) none
        Twick.stEmptyCanvas).1.twickCanvas = some c2 ∧
      ∃ o, o ∈ c2.objects ∧ o.elementId = some "v1" ∧
        o.snapTime = some ((2 - (0 : ℚ)) * 1 + 0) := by
  have h := Twick.addElementToCanvas_video_snapTime Twick.stEmptyCanvas
    { objects := [], backgroundColor := none } Twick.videoElZeroRate 0 (some 2) none
    rfl rfl rfl rfl
  simpa [Twick.videoElZeroRate] using h

/-- Helper: inserting into the z-index-sorted list permutes consing. -/
theorem Twick.insertByZ_perm (o : Twick.VisualObject) (l : List Twick.VisualObject) :
    (Twick.insertByZ o l).Perm (o :: l) := by
  induction l with
  | nil => simp [Twick.insertByZ]
  | cons x xs ih =>
    simp only [Twick.insertByZ]
    by_cases h : o.zIndex < x.zIndex
    · simp [h]
    · rw [if_neg h]
      exact (ih.cons x).trans (List.Perm.swap o x xs)

/-- Helper: the z-index sort is a permutation. -/
theorem Twick.sortByZ_perm (l : List Twick.VisualObject) :
    (Twick.sortByZ l).Perm l := by
  induction l with
  | nil => simp [Twick.sortByZ]
  | cons x xs ih =>
    exact (Twick.insertByZ_perm x (Twick.sortByZ xs)).trans (ih.cons x)

/-- Helper: the reorder permutes the canvas objects — it creates and
destroys nothing. -/
theorem Twick.reorder_perm (c : Twick.Canvas) :
    (Twick.reorderElementsByZIndex c).objects.Perm c.objects := by
  simp only [Twick.reorderElementsByZIndex]
  refine ((Twick.sortByZ_perm _).append_left _).trans ?_
  have h := List.filter_append_perm
    (fun o : Twick.VisualObject => decide (o.kind = "frameGuide")) c.objects
  simpa [ne_eq, decide_not] using h

/-- C10: projecting an element whose type is none of the recognized
kinds creates no visual object (the canvas is merely reordered, a
permutation of what it held), yet the registry entry for its identifier
is still written with the element snapshot, and the z-index reorder is
still performed when requested. -/
theorem Twick.addElementToCanvas_unknown_type (st : Twick.TwickState) (c : Twick.Canvas)
    (el : Twick.CanvasElement) (i : ℕ) (t : Option ℚ) (cp : Option Twick.CaptionProps)
    (hc : st.twickCanvas = some c)
    (h1 : el.type ≠ "video") (h2 : el.type ≠ "image") (h3 : el.type ≠ "rect")
    (h4 : el.type ≠ "circle") (h5 : el.type ≠ "text") (h6 : el.type ≠ "caption")
    (h7 : el.type ≠ "background") :
    Twick.addElementToCanvas el i true t cp st =
      ({ st with
          twickCanvas := some (Twick.reorderElementsByZIndex c)
          elementMap := Twick.jsSet st.elementMap el.id el }, none) ∧
    (Twick.reorderElementsByZIndex c).objects.Perm c.objects := by
  constructor
  · simp [Twick.addElementToCanvas, hc, h1, h2, h3, h4, h5, h6]
  · exact Twick.reorder_perm c

/-- C10 witness: projecting the unrecognized element at index 3 leaves
the canvas objects a mere reorder, records the snapshot, and raises
nothing. -/
theorem Twick.addElementToCanvas_unknown_type_witness :
    Twick.addElementToCanvas Twick.unknownEl 3 true (some 0) none Twick.stBg =
      ({ Twick.stBg with
          twickCanvas := some (Twick.reorderElementsByZIndex Twick.cBg)
          elementMap := Twick.jsSet Twick.stBg.elementMap "u1" Twick.unknownEl }, none) ∧
    (Twick.reorderElementsByZIndex Twick.cBg).objects.Perm Twick.cBg.objects :=
  Twick.addElementToCanvas_unknown_type Twick.stBg Twick.cBg Twick.unknownEl 3
    (some 0) none rfl
    (by simp [Twick.unknownEl]) (by simp [Twick.unknownEl]) (by simp [Twick.unknownEl])
    (by simp [Twick.unknownEl]) (by simp [Twick.unknownEl]) (by simp [Twick.unknownEl])
    (by simp [Twick.unknownEl])
